import Mathlib

/-!
Shallow embedding of the nostr-tx-broadcast bridge (src/main.rs).

The program subscribes to nostr events of kind 28333, filters them by a
"magic" network-identity tag, extracts hex-encoded bitcoin transactions
from a "transactions" tag, and submits them to a bitcoin node over RPC,
choosing `send_raw_transaction` for a single transaction and
`submitpackage` for two or more.

External collaborators (the bitcoin consensus decoder, the txid
derivation, and the node RPC) are modelled as parameters: an arbitrary
transaction type `Tx`, a decoder `List Nat → Option Tx`, a
`txid : Tx → String`, and an `Rpc Tx` record of response functions.
The observable behaviour of the bridge is the list of node calls it
makes, the list of lines it prints, and the `Result` it returns.
-/

/-- The bitcoin networks selectable by the `--network` option
(`nostr::Network`, backed by `bitcoin::Network`). -/
inductive Network where
  | bitcoin
  | testnet
  | signet
  | regtest
deriving DecidableEq, Repr

/-- `Network::magic()` from the bitcoin crate: the four magic bytes of
each network. -/
def Network.magic : Network → List Nat
  | Network.bitcoin => [0xF9, 0xBE, 0xB4, 0xD9]
  | Network.testnet => [0x0B, 0x11, 0x09, 0x07]
  | Network.signet  => [0x0A, 0x03, 0xCF, 0x40]
  | Network.regtest => [0xFA, 0xBF, 0xB5, 0xDA]

/-- Bridge configuration relevant to the event pipeline: the target
network (`args.network`). -/
structure Config where
  network : Network
deriving DecidableEq, Repr

/-- A nostr tag. `Tag::Generic(kind, values)` carries a tag-kind
identifier and a list of string values; every other variant of the
nostr `Tag` enum is collapsed to `other` carrying only the string its
`kind()` method reports, since the handler destructures nothing else. -/
inductive Tag where
  | generic (kind : String) (values : List String)
  | other (kind : String)
deriving DecidableEq, Repr

/-- `Tag::kind()`: the tag-kind identifier of a tag. -/
def Tag.kind : Tag → String
  | Tag.generic k _ => k
  | Tag.other k => k

/-- A nostr event as seen by the handler: its `kind` number and its
ordered tag list (signature and identity fields are never read). -/
structure NostrEvent where
  kind : Nat
  tags : List Tag
deriving DecidableEq, Repr

/-- `RelayPoolNotification`: the handler only destructures the `Event`
variant; `Message` and `Shutdown` fall through. -/
inductive Notification where
  | event (relayUrl : String) (ev : NostrEvent)
  | message (relayUrl : String)
  | shutdown
deriving DecidableEq, Repr

/-- The value of a hex digit, case-insensitive; `none` for a non-hex
character. -/
def hexDigitVal (c : Char) : Option Nat :=
  if c.isDigit then some (c.toNat - 48)
  else if 'a' ≤ c ∧ c ≤ 'f' then some (c.toNat - 87)
  else if 'A' ≤ c ∧ c ≤ 'F' then some (c.toNat - 55)
  else none

/-- Decode a list of hex characters, two per byte; fails on a non-hex
character or an odd count. -/
def decodeHexChars : List Char → Option (List Nat)
  | [] => some []
  | [_] => none
  | c1 :: c2 :: rest => do
    let hi ← hexDigitVal c1
    let lo ← hexDigitVal c2
    let bs ← decodeHexChars rest
    pure ((16 * hi + lo) :: bs)

/-- `Magic::from_str` from the bitcoin crate: exactly eight hex
characters decoding to the four magic bytes, otherwise failure. -/
def magicFromStr (s : String) : Option (List Nat) :=
  if s.length == 8 then decodeHexChars s.data else none

/-- `HexString::from_string(..)` followed by `as_bytes()`: hex-decode a
string to bytes, failing on non-hex characters or odd length. -/
def hexFromString (s : String) : Option (List Nat) :=
  decodeHexChars s.data

/-- The magic-tag lookup of the notification handler: find the first tag
whose kind is `magic`, require it to be a generic tag, take its first
value and parse it with `Magic::from_str`.  Any failure gives `none`. -/
def findMagic (tags : List Tag) : Option (List Nat) :=
  (tags.find? fun t => t.kind == "magic").bind fun t =>
    match t with
    | Tag.generic _ vs => vs.head?.bind magicFromStr
    | Tag.other _ => none

/-- One entry of the transactions tag: hex-decode the string, then run
the consensus decoder on the bytes. -/
def decodeEntry {Tx : Type} (decode : List Nat → Option Tx) (s : String) : Option Tx :=
  (hexFromString s).bind decode

/-- The transaction extraction of the notification handler: find the
first tag whose kind is `transactions`; if it is a generic tag, decode
its values in order keeping the successes, otherwise the empty list. -/
def extractTxs {Tx : Type} (decode : List Nat → Option Tx) (tags : List Tag) : List Tx :=
  match tags.find? fun t => t.kind == "transactions" with
  | some (Tag.generic _ vs) => vs.filterMap (decodeEntry decode)
  | some (Tag.other _) => []
  | none => []

/-- A call made to the bitcoin node. -/
inductive NodeCall (Tx : Type) where
  | sendRaw (tx : Tx)
  | submitPackage (txs : List Tx)
deriving DecidableEq, Repr

/-- The node RPC modelled as response functions: `send_raw_transaction`
answers acceptance (the txid string) or a rejection reason, and
`submit_package` answers the debug representation of its
`SubmitPackageResult` or an error. -/
structure Rpc (Tx : Type) where
  sendRawTransaction : Tx → Except String String
  submitPackage : List Tx → Except String String

/-- The `Kind::Custom(28333)` event kind the bridge listens for. -/
def bitcoinTxKind : Nat := 28333

/-- The summary line printed after a completed dispatch:
`Submitted transactions:` followed by the comma-joined txids. -/
def summaryLine {Tx : Type} (txid : Tx → String) (txs : List Tx) : String :=
  "Submitted transactions: " ++ String.intercalate "," (txs.map txid)

/-- The `for tx in &txs` loop of the single-transaction arm of
`broadcast_txs`: each transaction is sent with `send_raw_transaction`;
an error is logged and the loop continues, a success logs the txid. -/
def sendRawLoop {Tx : Type} (rpc : Rpc Tx) (txid : Tx → String) :
    List Tx → List (NodeCall Tx) × List String
  | [] => ([], [])
  | tx :: rest =>
    let line :=
      match rpc.sendRawTransaction tx with
      | Except.error e => "Error broadcasting tx: " ++ e
      | Except.ok _ => "Broadcasted tx: " ++ txid tx
    let (cs, ls) := sendRawLoop rpc txid rest
    (NodeCall.sendRaw tx :: cs, line :: ls)

/-- `broadcast_txs`: match on the number of transactions.  Zero returns
immediately with success; one uses `send_raw_transaction`, swallowing a
rejection; two or more submit the whole list with `submit_package`,
turning a failure into an error return (`bail!`) and printing the debug
result on success.  Except on the empty and the failing-package paths,
a summary line of all txids is printed at the end.  The value is
(node calls made, lines printed, returned `Result`). -/
def broadcastTxs {Tx : Type} (rpc : Rpc Tx) (txid : Tx → String) (txs : List Tx) :
    List (NodeCall Tx) × List String × Except String Unit :=
  match txs.length with
  | 0 => ([], [], Except.ok ())
  | 1 =>
    let (calls, lines) := sendRawLoop rpc txid txs
    (calls, lines ++ [summaryLine txid txs], Except.ok ())
  | _ + 2 =>
    match rpc.submitPackage txs with
    | Except.error e =>
      ([NodeCall.submitPackage txs], [], Except.error ("Error submitting package: " ++ e))
    | Except.ok r =>
      ([NodeCall.submitPackage txs], ["Ok(" ++ r ++ ")", summaryLine txid txs],
        Except.ok ())

/-- The per-notification handler passed to `handle_notifications`: only
`Event` notifications of kind 28333 are considered; the magic tag must
be present, parse, and equal the configured network's magic; then the
extracted transactions are dispatched, and a dispatch error is caught
and logged.  The closure always returns `Ok(())`. -/
def handleNotification {Tx : Type} (cfg : Config) (decode : List Nat → Option Tx)
    (txid : Tx → String) (rpc : Rpc Tx) (n : Notification) :
    List (NodeCall Tx) × List String × Except String Unit :=
  match n with
  | Notification.event _ ev =>
    if ev.kind == bitcoinTxKind then
      match findMagic ev.tags with
      | some m =>
        if m == cfg.network.magic then
          match broadcastTxs rpc txid (extractTxs decode ev.tags) with
          | (calls, lines, Except.error e) =>
            (calls, lines ++ ["Error broadcasting txs: " ++ e], Except.ok ())
          | (calls, lines, Except.ok _) => (calls, lines, Except.ok ())
        else ([], [], Except.ok ())
      | none => ([], [], Except.ok ())
    else ([], [], Except.ok ())
  | Notification.message _ => ([], [], Except.ok ())
  | Notification.shutdown => ([], [], Except.ok ())

/-- One step of `main`'s startup sequence, in program order. -/
inductive StartupStep where
  | addRelay (relay : String)
  | connectRelays
  | subscribe (kind : Nat)
  | rpcNew
  | getNetworkInfo
  | listening
deriving DecidableEq, Repr

/-- How `main`'s startup can end. -/
inductive MainOutcome where
  | earlyError (msg : String)
  | panicked
  | reachedHandler
deriving DecidableEq, Repr

/-- Outcomes of the external calls made during startup: whether
`client.add_relay(relay, None)` accepts each relay URL (its error is
propagated by `?` in `main`), and whether the two node-RPC calls —
constructing the `bitcoincore_rpc::Client` and the `get_network_info`
probe — succeed.  Those two are `unwrap`ped in `main`, so a failure
panics. -/
structure StartupEnv where
  addRelay : String → Except String Unit
  rpcNewOk : Bool
  getNetworkInfoOk : Bool

/-- The `for relay in args.relays` loop of `main`: each relay is added
in order; an `add_relay` error stops the loop and is propagated by `?`,
returning it from `main`.  The value is (steps performed, propagated
error if any). -/
def addRelayLoop (env : StartupEnv) : List String → List StartupStep × Option String
  | [] => ([], none)
  | r :: rest =>
    match env.addRelay r with
    | Except.error e => ([StartupStep.addRelay r], some e)
    | Except.ok _ =>
      let (steps, res) := addRelayLoop env rest
      (StartupStep.addRelay r :: steps, res)

/-- The startup sequence of `main`: bail if no relays were given; add
each relay, returning early if `add_relay` fails; connect; subscribe to
kind 28333; then construct the node RPC client and probe it with
`get_network_info`, panicking on either failure; only then start
handling notifications.  The value is (steps performed, outcome). -/
def mainStartup (relays : List String) (env : StartupEnv) :
    List StartupStep × MainOutcome :=
  if relays.length == 0 then ([], MainOutcome.earlyError "No relay(s) provided")
  else
    match addRelayLoop env relays with
    | (steps, some e) => (steps, MainOutcome.earlyError e)
    | (steps, none) =>
      let pre := steps ++ [StartupStep.connectRelays, StartupStep.subscribe bitcoinTxKind]
      if !env.rpcNewOk then (pre ++ [StartupStep.rpcNew], MainOutcome.panicked)
      else if !env.getNetworkInfoOk then
        (pre ++ [StartupStep.rpcNew, StartupStep.getNetworkInfo], MainOutcome.panicked)
      else
        (pre ++ [StartupStep.rpcNew, StartupStep.getNetworkInfo, StartupStep.listening],
          MainOutcome.reachedHandler)

instance {ε α : Type} [DecidableEq ε] [DecidableEq α] : DecidableEq (Except ε α) := fun a b =>
  match a, b with
  | Except.ok x, Except.ok y =>
    if h : x = y then isTrue (by rw [h]) else isFalse (by intro he; cases he; exact h rfl)
  | Except.error x, Except.error y =>
    if h : x = y then isTrue (by rw [h]) else isFalse (by intro he; cases he; exact h rfl)
  | Except.ok _, Except.error _ => isFalse (by intro he; cases he)
  | Except.error _, Except.ok _ => isFalse (by intro he; cases he)

/-- Concrete stand-in for the consensus decoder in witnesses: a byte
list decodes to its first byte; the empty byte list fails to decode. -/
def decodeHead : List Nat → Option Nat := fun bs => bs.head?

/-- Concrete txid derivation for witnesses. -/
def natTxid : Nat → String := fun n => toString n

/-- A node that accepts everything. -/
def rpcAllOk : Rpc Nat := ⟨fun _ => Except.ok "txid", fun _ => Except.ok "pkg"⟩

/-- A node whose package submission fails. -/
def rpcPkgFail : Rpc Nat := ⟨fun _ => Except.ok "txid", fun _ => Except.error "boom"⟩

/-- A node that rejects single submissions. -/
def rpcSingleFail : Rpc Nat := ⟨fun _ => Except.error "rejected", fun _ => Except.ok "pkg"⟩

/-- Bridge configured for mainnet. -/
def cfgBtc : Config := ⟨Network.bitcoin⟩

/-- A matching mainnet magic tag. -/
def magicTagBtc : Tag := Tag.generic "magic" ["f9beb4d9"]

/-- An event with a matching magic tag and two decodable transactions. -/
def evGood2 : NostrEvent :=
  ⟨28333, [magicTagBtc, Tag.generic "transactions" ["00", "01"]]⟩

/-- An event with a matching magic tag and one decodable transaction. -/
def evGood1 : NostrEvent :=
  ⟨28333, [magicTagBtc, Tag.generic "transactions" ["05"]]⟩

/-- An event of the right kind whose magic tag carries the testnet
magic. -/
def evTestnet : NostrEvent :=
  ⟨28333, [Tag.generic "magic" ["0b110907"], Tag.generic "transactions" ["00"]]⟩

/-- A startup environment in which every relay URL is accepted by
`add_relay` but the node connection fails. -/
def envNodeDown : StartupEnv := ⟨fun _ => Except.ok (), false, false⟩

/-- `List.find?` over an append looks only at the first list when it
already finds a match there. -/
theorem find?_append_of_isSome {α : Type} (p : α → Bool) :
    ∀ (l1 l2 : List α), (l1.find? p).isSome → (l1 ++ l2).find? p = l1.find? p
  | [], _, h => by simp [List.find?] at h
  | a :: l1, l2, h => by
    cases hp : p a with
    | true => simp [List.find?, hp]
    | false =>
      simp only [List.find?, hp] at h
      simp only [List.cons_append, List.find?, hp]
      exact find?_append_of_isSome p l1 l2 h

/-- `filterMap` keeps exactly the entries on which `f` succeeds, in
order: mapping `some` over the output is mapping `f` over the
successful entries. -/
theorem filterMap_map_some {α β : Type} (f : α → Option β) :
    ∀ l : List α, (l.filterMap f).map some = (l.filter fun a => (f a).isSome).map f
  | [] => rfl
  | a :: l => by
    cases hf : f a with
    | none => simp [List.filterMap_cons, List.filter_cons, hf, filterMap_map_some f l]
    | some b => simp [List.filterMap_cons, List.filter_cons, hf, filterMap_map_some f l]

/-- The length of a `filterMap` is the number of entries on which `f`
succeeds. -/
theorem length_filterMap_countP {α β : Type} (f : α → Option β) :
    ∀ l : List α, (l.filterMap f).length = l.countP fun a => (f a).isSome
  | [] => rfl
  | a :: l => by
    cases hf : f a with
    | none => simp [List.filterMap_cons, List.countP_cons, hf, length_filterMap_countP f l]
    | some b => simp [List.filterMap_cons, List.countP_cons, hf, length_filterMap_countP f l]

/-- `broadcast_txs` on the empty list: immediate success, no call, no
output. -/
theorem broadcastTxs_nil {Tx : Type} (rpc : Rpc Tx) (txid : Tx → String) :
    broadcastTxs rpc txid ([] : List Tx) = ([], [], Except.ok ()) := rfl

/-- `broadcast_txs` on a singleton whose submission the node accepts. -/
theorem broadcastTxs_single_ok {Tx : Type} (rpc : Rpc Tx) (txid : Tx → String)
    (tx : Tx) (r : String) (h : rpc.sendRawTransaction tx = Except.ok r) :
    broadcastTxs rpc txid [tx] =
      ([NodeCall.sendRaw tx], ["Broadcasted tx: " ++ txid tx, summaryLine txid [tx]],
        Except.ok ()) := by
  simp [broadcastTxs, sendRawLoop, h]

/-- `broadcast_txs` on a singleton whose submission the node rejects:
the rejection is logged with the node's reason and the call still
returns success. -/
theorem broadcastTxs_single_err {Tx : Type} (rpc : Rpc Tx) (txid : Tx → String)
    (tx : Tx) (e : String) (h : rpc.sendRawTransaction tx = Except.error e) :
    broadcastTxs rpc txid [tx] =
      ([NodeCall.sendRaw tx], ["Error broadcasting tx: " ++ e, summaryLine txid [tx]],
        Except.ok ()) := by
  simp [broadcastTxs, sendRawLoop, h]

/-- `broadcast_txs` on two or more transactions when the package call
fails: one package call, no output, an error return. -/
theorem broadcastTxs_package_err {Tx : Type} (rpc : Rpc Tx) (txid : Tx → String)
    (txs : List Tx) (e : String) (h2 : 2 ≤ txs.length)
    (h : rpc.submitPackage txs = Except.error e) :
    broadcastTxs rpc txid txs =
      ([NodeCall.submitPackage txs], [],
        Except.error ("Error submitting package: " ++ e)) := by
  match txs with
  | [] => simp at h2
  | [_] => simp at h2
  | a :: b :: rest => simp [broadcastTxs, h]

/-- `broadcast_txs` on two or more transactions when the package call
succeeds: one package call, the debug result and the summary line, a
success return. -/
theorem broadcastTxs_package_ok {Tx : Type} (rpc : Rpc Tx) (txid : Tx → String)
    (txs : List Tx) (r : String) (h2 : 2 ≤ txs.length)
    (h : rpc.submitPackage txs = Except.ok r) :
    broadcastTxs rpc txid txs =
      ([NodeCall.submitPackage txs], ["Ok(" ++ r ++ ")", summaryLine txid txs],
        Except.ok ()) := by
  match txs with
  | [] => simp at h2
  | [_] => simp at h2
  | a :: b :: rest => simp [broadcastTxs, h]

/-- The handler ignores an event whose kind differs from 28333 or whose
magic lookup does not produce the configured network's magic bytes. -/
theorem handleNotification_no_call {Tx : Type} (cfg : Config)
    (decode : List Nat → Option Tx) (txid : Tx → String) (rpc : Rpc Tx)
    (url : String) (ev : NostrEvent)
    (h : ev.kind ≠ bitcoinTxKind ∨ findMagic ev.tags ≠ some cfg.network.magic) :
    handleNotification cfg decode txid rpc (Notification.event url ev) =
      ([], [], Except.ok ()) := by
  rcases h with hk | hm
  · simp [handleNotification, hk]
  · by_cases hkind : ev.kind = bitcoinTxKind
    · cases hfm : findMagic ev.tags with
      | none => simp [handleNotification, hkind, hfm]
      | some m =>
        have hne : m ≠ cfg.network.magic := by
          intro he; exact hm (by rw [hfm, he])
        simp [handleNotification, hkind, hfm, hne]
    · simp [handleNotification, hkind]

/-- C1: for every delivered event, a node submission call occurs only if
the event's kind equals the configured listening kind 28333 and the
event's magic tag parses to exactly the configured network's magic
bytes; if the kind differs or the magic lookup does not produce the
target magic (tag absent, unparseable value, or a different network),
the handler makes no node call, prints nothing, and returns `Ok`. -/
theorem c1_node_call_requires_kind_and_magic {Tx : Type} (cfg : Config)
    (decode : List Nat → Option Tx) (txid : Tx → String) (rpc : Rpc Tx)
    (url : String) (ev : NostrEvent)
    (h : ev.kind ≠ bitcoinTxKind ∨ findMagic ev.tags ≠ some cfg.network.magic) :
    handleNotification cfg decode txid rpc (Notification.event url ev) =
      ([], [], Except.ok ()) :=
  handleNotification_no_call cfg decode txid rpc url ev h

/-- Witness for C1: an event of the listening kind whose magic tag
carries the testnet magic is ignored by a mainnet bridge. -/
theorem c1_witness :
    handleNotification cfgBtc decodeHead natTxid rpcAllOk
      (Notification.event "r" evTestnet) = ([], [], Except.ok ()) :=
  c1_node_call_requires_kind_and_magic cfgBtc decodeHead natTxid rpcAllOk "r"
    evTestnet (Or.inr (by decide))

/-- C2: when the first transactions tag is a generic tag with values
`vs`, extraction yields exactly the entries of `vs` that hex-decode and
consensus-decode, in their original relative order, silently omitting
the failing entries; when no transactions tag is present, extraction
yields the empty list. -/
theorem c2_extraction_filters_and_preserves_order {Tx : Type}
    (decode : List Nat → Option Tx) (tags : List Tag) :
    (∀ k vs, tags.find? (fun t => t.kind == "transactions") = some (Tag.generic k vs) →
      extractTxs decode tags = vs.filterMap (decodeEntry decode) ∧
      (extractTxs decode tags).map some =
        (vs.filter fun s => (decodeEntry decode s).isSome).map (decodeEntry decode) ∧
      (extractTxs decode tags).length =
        vs.countP fun s => (decodeEntry decode s).isSome) ∧
    (tags.find? (fun t => t.kind == "transactions") = none →
      extractTxs decode tags = []) := by
  constructor
  · intro k vs h
    have he : extractTxs decode tags = vs.filterMap (decodeEntry decode) := by
      simp [extractTxs, h]
    exact ⟨he, by rw [he]; exact filterMap_map_some (decodeEntry decode) vs,
      by rw [he]; exact length_filterMap_countP (decodeEntry decode) vs⟩
  · intro h
    simp [extractTxs, h]

/-- Witness for C2: with the head-byte decoder, the tag values
`00, zz, 01` yield exactly the two decodable entries in order. -/
theorem c2_witness :
    extractTxs decodeHead [Tag.generic "transactions" ["00", "zz", "01"]] = [0, 1] :=
  (((c2_extraction_filters_and_preserves_order decodeHead
      [Tag.generic "transactions" ["00", "zz", "01"]]).1
    "transactions" ["00", "zz", "01"] (by decide)).1).trans (by decide)

/-- C3: for every transaction list of length two or more, dispatch makes
exactly one node call, a package submission carrying the whole list in
its original order, and never a single-item submission. -/
theorem c3_package_for_two_or_more {Tx : Type} (rpc : Rpc Tx) (txid : Tx → String)
    (txs : List Tx) (h : 2 ≤ txs.length) :
    (broadcastTxs rpc txid txs).1 = [NodeCall.submitPackage txs] := by
  cases hsp : rpc.submitPackage txs with
  | error e => simp [broadcastTxs_package_err rpc txid txs e h hsp]
  | ok r => simp [broadcastTxs_package_ok rpc txid txs r h hsp]

/-- Witness for C3: dispatching two transactions makes exactly the one
package call. -/
theorem c3_witness :
    (broadcastTxs rpcAllOk natTxid [(7 : Nat), 8]).1 =
      [NodeCall.submitPackage [(7 : Nat), 8]] :=
  c3_package_for_two_or_more rpcAllOk natTxid [(7 : Nat), 8] (by decide)

/-- C4: for every transaction list of length exactly one, dispatch makes
exactly one node call, a single-item submission of that transaction,
never a package call; it returns success even when the node rejects the
transaction, in which case the rejection reason is logged. -/
theorem c4_single_item_path {Tx : Type} (rpc : Rpc Tx) (txid : Tx → String)
    (txs : List Tx) (h : txs.length = 1) :
    ∃ tx, txs = [tx] ∧
      (broadcastTxs rpc txid txs).1 = [NodeCall.sendRaw tx] ∧
      (broadcastTxs rpc txid txs).2.2 = Except.ok () ∧
      ∀ e, rpc.sendRawTransaction tx = Except.error e →
        (broadcastTxs rpc txid txs).2.1 =
          ["Error broadcasting tx: " ++ e, summaryLine txid txs] := by
  cases txs with
  | nil => simp at h
  | cons tx rest =>
    cases rest with
    | cons b r => simp at h
    | nil =>
      refine ⟨tx, rfl, ?_, ?_, ?_⟩
      · cases hs : rpc.sendRawTransaction tx with
        | error e => simp [broadcastTxs_single_err rpc txid tx e hs]
        | ok r => simp [broadcastTxs_single_ok rpc txid tx r hs]
      · cases hs : rpc.sendRawTransaction tx with
        | error e => simp [broadcastTxs_single_err rpc txid tx e hs]
        | ok r => simp [broadcastTxs_single_ok rpc txid tx r hs]
      · intro e he
        simp [broadcastTxs_single_err rpc txid tx e he]

/-- Witness for C4: a rejected single transaction is logged with the
node's reason and dispatch still succeeds. -/
theorem c4_witness :
    (broadcastTxs rpcSingleFail natTxid [(5 : Nat)]).2.1 =
      ["Error broadcasting tx: rejected", summaryLine natTxid [(5 : Nat)]] ∧
    (broadcastTxs rpcSingleFail natTxid [(5 : Nat)]).2.2 = Except.ok () := by
  obtain ⟨tx, htx, hcalls, hok, hlog⟩ :=
    c4_single_item_path rpcSingleFail natTxid [(5 : Nat)] (by decide)
  injection htx with h1 h2
  subst h1
  exact ⟨hlog "rejected" rfl, hok⟩

/-- C8: dispatch on the empty transaction list makes no node call,
prints nothing, and returns success. -/
theorem c8_empty_dispatch_noop {Tx : Type} (rpc : Rpc Tx) (txid : Tx → String) :
    broadcastTxs rpc txid ([] : List Tx) = ([], [], Except.ok ()) := rfl

/-- C5: when the package submission fails, `broadcast_txs` returns an
error (the failure is surfaced upward), and the notification handler
catches that error, logs it, and itself returns `Ok`, so the
subscription loop goes on to the next event. -/
theorem c5_package_failure_surfaced_then_contained {Tx : Type} (cfg : Config)
    (decode : List Nat → Option Tx) (txid : Tx → String) (rpc : Rpc Tx)
    (url : String) (ev : NostrEvent) (e : String)
    (hk : ev.kind = bitcoinTxKind)
    (hm : findMagic ev.tags = some cfg.network.magic)
    (h2 : 2 ≤ (extractTxs decode ev.tags).length)
    (hf : rpc.submitPackage (extractTxs decode ev.tags) = Except.error e) :
    (broadcastTxs rpc txid (extractTxs decode ev.tags)).2.2 =
      Except.error ("Error submitting package: " ++ e) ∧
    handleNotification cfg decode txid rpc (Notification.event url ev) =
      ([NodeCall.submitPackage (extractTxs decode ev.tags)],
        ["Error broadcasting txs: " ++ ("Error submitting package: " ++ e)],
        Except.ok ()) := by
  have hb := broadcastTxs_package_err rpc txid (extractTxs decode ev.tags) e h2 hf
  constructor
  · rw [hb]
  · simp [handleNotification, hk, hm, hb]

/-- Witness for C5: a failing package submission is logged by the
handler, which still returns `Ok`. -/
theorem c5_witness :
    handleNotification cfgBtc decodeHead natTxid rpcPkgFail
      (Notification.event "r" evGood2) =
      ([NodeCall.submitPackage [0, 1]],
        ["Error broadcasting txs: Error submitting package: boom"],
        Except.ok ()) :=
  ((c5_package_failure_surfaced_then_contained cfgBtc decodeHead natTxid rpcPkgFail
      "r" evGood2 "boom" (by decide) (by decide) (by decide) (by decide)).2).trans
    (by decide)

/-- C6 as stated is refuted: dispatching the non-empty list `[0, 1]`
against a node whose package call fails produces no output lines at
all, in particular no summary line of submitted txids. -/
theorem c6_counterexample :
    ([(0 : Nat), 1] ≠ []) ∧
    (broadcastTxs rpcPkgFail natTxid [(0 : Nat), 1]).2.1 = [] := by decide

/-- C6 amended: for every non-empty transaction list, whenever dispatch
returns success (always on the single-item path, and on the package
path when the package call succeeds) its final output line is the
summary listing every transaction's derived identifier; when the
package call fails, dispatch errors out before the summary. -/
theorem c6_summary_line_on_success {Tx : Type} (rpc : Rpc Tx) (txid : Tx → String)
    (txs : List Tx) (hne : txs ≠ [])
    (hok : (broadcastTxs rpc txid txs).2.2 = Except.ok ()) :
    (broadcastTxs rpc txid txs).2.1.getLast? = some (summaryLine txid txs) ∧
    summaryLine txid txs =
      "Submitted transactions: " ++ String.intercalate "," (txs.map txid) := by
  refine ⟨?_, rfl⟩
  cases txs with
  | nil => exact absurd rfl hne
  | cons tx rest =>
    cases rest with
    | nil =>
      cases hs : rpc.sendRawTransaction tx with
      | error e => simp [broadcastTxs_single_err rpc txid tx e hs, List.getLast?]
      | ok r => simp [broadcastTxs_single_ok rpc txid tx r hs, List.getLast?]
    | cons b r =>
      cases hsp : rpc.submitPackage (tx :: b :: r) with
      | error e =>
        rw [broadcastTxs_package_err rpc txid (tx :: b :: r) e (by simp) hsp] at hok
        simp at hok
      | ok rr =>
        simp [broadcastTxs_package_ok rpc txid (tx :: b :: r) rr (by simp) hsp,
          List.getLast?]

/-- Witness for C6 amended: a successful package dispatch of two
transactions ends its output with the summary line. -/
theorem c6_witness :
    (broadcastTxs rpcAllOk natTxid [(3 : Nat), 4]).2.1.getLast? =
      some (summaryLine natTxid [(3 : Nat), 4]) :=
  (c6_summary_line_on_success rpcAllOk natTxid [(3 : Nat), 4] (by decide)
    (by decide)).1

/-- When `add_relay` accepts every configured relay, the relay loop
performs one step per relay, in order, and propagates no error. -/
theorem addRelayLoop_all_ok (env : StartupEnv) :
    ∀ relays : List String, (∀ r ∈ relays, env.addRelay r = Except.ok ()) →
      addRelayLoop env relays = (relays.map StartupStep.addRelay, none)
  | [], _ => rfl
  | r :: rest, h => by
    have hr : env.addRelay r = Except.ok () := h r (List.mem_cons_self r rest)
    have ih := addRelayLoop_all_ok env rest fun x hx => h x (List.mem_cons_of_mem r hx)
    simp [addRelayLoop, hr, ih]

/-- C7 as stated is refuted: against a node whose RPC construction
fails (with a well-formed relay URL that `add_relay` accepts), startup
panics, the handler is never reached, and yet the subscription step was
already performed before the node connection was attempted. -/
theorem c7_counterexample :
    (mainStartup ["wss://relay.damus.io"] envNodeDown).2 = MainOutcome.panicked ∧
    StartupStep.subscribe bitcoinTxKind ∈
      (mainStartup ["wss://relay.damus.io"] envNodeDown).1 ∧
    StartupStep.listening ∉ (mainStartup ["wss://relay.damus.io"] envNodeDown).1 := by
  decide

/-- C7 amended: with at least one relay configured and every relay
accepted by `add_relay`, `main` subscribes to the event stream before
it attempts the node connection; a node connectivity or authentication
failure at startup is fatal (the process panics) and prevents the
notification-handling loop from starting, but the subscription has
already been issued by then.  (An `add_relay` failure instead makes
`main` return early, before subscribing.) -/
theorem c7_subscribe_precedes_node_connect (relays : List String) (env : StartupEnv)
    (h : relays ≠ [])
    (hr : ∀ r ∈ relays, env.addRelay r = Except.ok ()) :
    (∃ suffix, (mainStartup relays env).1 =
      relays.map StartupStep.addRelay ++
        [StartupStep.connectRelays, StartupStep.subscribe bitcoinTxKind,
          StartupStep.rpcNew] ++ suffix) ∧
    ((env.rpcNewOk = false ∨ env.getNetworkInfoOk = false) →
      (mainStartup relays env).2 = MainOutcome.panicked ∧
      StartupStep.listening ∉ (mainStartup relays env).1) := by
  have hl : (relays.length == 0) = false := by
    cases relays with
    | nil => exact absurd rfl h
    | cons a l => rfl
  have hloop := addRelayLoop_all_ok env relays hr
  cases env with
  | mk ar rn gi =>
    cases rn with
    | false =>
      refine ⟨⟨[], by simp [mainStartup, hl, hloop]⟩, fun _ => ?_⟩
      constructor
      · simp [mainStartup, hl, hloop]
      · simp [mainStartup, hl, hloop, List.mem_append, List.mem_map]
    | true =>
      cases gi with
      | false =>
        refine ⟨⟨[StartupStep.getNetworkInfo], by simp [mainStartup, hl, hloop]⟩,
          fun _ => ?_⟩
        constructor
        · simp [mainStartup, hl, hloop]
        · simp [mainStartup, hl, hloop, List.mem_append, List.mem_map]
      | true =>
        refine ⟨⟨[StartupStep.getNetworkInfo, StartupStep.listening],
          by simp [mainStartup, hl, hloop]⟩, fun hfail => ?_⟩
        rcases hfail with hf | hf <;> exact absurd hf (by simp)

/-- Witness for C7 amended: one accepted relay URL, failing node
construction. -/
theorem c7_witness :
    (∃ suffix, (mainStartup ["wss://nos.lol"] envNodeDown).1 =
      ["wss://nos.lol"].map StartupStep.addRelay ++
        [StartupStep.connectRelays, StartupStep.subscribe bitcoinTxKind,
          StartupStep.rpcNew] ++ suffix) ∧
    (envNodeDown.rpcNewOk = false ∨ envNodeDown.getNetworkInfoOk = false →
      (mainStartup ["wss://nos.lol"] envNodeDown).2 = MainOutcome.panicked ∧
      StartupStep.listening ∉ (mainStartup ["wss://nos.lol"] envNodeDown).1) :=
  c7_subscribe_precedes_node_connect ["wss://nos.lol"] envNodeDown (by decide)
    (by decide)

/-- C9: each lookup uses only the first tag matching its marker, so the
tags sitting anywhere after that first match — in particular any later
tag matching the same marker — have no effect: once a prefix `l1`
contains a magic match, the identity decision over `l1 ++ mid ++ l2`
equals the one over `l1 ++ l2` whatever `mid` holds, and once `l1`
contains a transactions match, the same holds for the extracted
transaction list.  The two parts are independent: either marker may be
duplicated with or without the other being present. -/
theorem c9_first_matching_tag_wins {Tx : Type} (decode : List Nat → Option Tx)
    (l1 mid l2 : List Tag) :
    ((l1.find? fun t => t.kind == "magic").isSome →
      findMagic (l1 ++ mid ++ l2) = findMagic (l1 ++ l2)) ∧
    ((l1.find? fun t => t.kind == "transactions").isSome →
      extractTxs decode (l1 ++ mid ++ l2) = extractTxs decode (l1 ++ l2)) := by
  have key : ∀ p : Tag → Bool, (l1.find? p).isSome →
      (l1 ++ mid ++ l2).find? p = (l1 ++ l2).find? p := by
    intro p hp
    rw [List.append_assoc, find?_append_of_isSome p l1 (mid ++ l2) hp,
      find?_append_of_isSome p l1 l2 hp]
  constructor
  · intro hm
    unfold findMagic
    rw [key (fun t => t.kind == "magic") hm]
  · intro ht
    unfold extractTxs
    rw [key (fun t => t.kind == "transactions") ht]

/-- Witness for C9: a duplicate magic tag in an event with no
transactions tag does not change the identity decision, and a duplicate
transactions tag placed before the magic tag does not change the
extracted list. -/
theorem c9_witness :
    findMagic ([Tag.generic "magic" ["f9beb4d9"]] ++
        [Tag.generic "magic" ["0b110907"]] ++ []) =
      findMagic ([Tag.generic "magic" ["f9beb4d9"]] ++ []) ∧
    extractTxs decodeHead ([Tag.generic "transactions" ["00"]] ++
        [Tag.generic "transactions" ["ff"]] ++ [magicTagBtc]) =
      extractTxs decodeHead ([Tag.generic "transactions" ["00"]] ++ [magicTagBtc]) :=
  ⟨(c9_first_matching_tag_wins decodeHead [Tag.generic "magic" ["f9beb4d9"]]
      [Tag.generic "magic" ["0b110907"]] []).1 (by decide),
    (c9_first_matching_tag_wins decodeHead [Tag.generic "transactions" ["00"]]
      [Tag.generic "transactions" ["ff"]] [magicTagBtc]).2 (by decide)⟩

/-- C10: the filter-and-extraction pipeline is total: the handler
returns `Ok` on every notification; an event whose magic lookup fails
triggers nothing; a magic tag with an empty value list, an unparseable
first value, or a non-generic shape all make the lookup fail; and a
non-generic transactions tag yields the empty transaction list. -/
theorem c10_pipeline_total {Tx : Type} (cfg : Config)
    (decode : List Nat → Option Tx) (txid : Tx → String) (rpc : Rpc Tx) :
    (∀ n : Notification, (handleNotification cfg decode txid rpc n).2.2 = Except.ok ()) ∧
    (∀ url ev, findMagic ev.tags = none →
      handleNotification cfg decode txid rpc (Notification.event url ev) =
        ([], [], Except.ok ())) ∧
    (∀ tags k, tags.find? (fun t => t.kind == "magic") = some (Tag.generic k []) →
      findMagic tags = none) ∧
    (∀ tags k s rest,
      tags.find? (fun t => t.kind == "magic") = some (Tag.generic k (s :: rest)) →
      magicFromStr s = none → findMagic tags = none) ∧
    (∀ tags k, tags.find? (fun t => t.kind == "magic") = some (Tag.other k) →
      findMagic tags = none) ∧
    (∀ tags k, tags.find? (fun t => t.kind == "transactions") = some (Tag.other k) →
      extractTxs decode tags = []) := by
  refine ⟨?_, ?_, ?_, ?_, ?_, ?_⟩
  · intro n
    cases n with
    | message u => rfl
    | shutdown => rfl
    | event url ev =>
      by_cases hk : ev.kind = bitcoinTxKind
      · cases hfm : findMagic ev.tags with
        | none => simp [handleNotification, hk, hfm]
        | some m =>
          by_cases hmm : m = cfg.network.magic
          · rcases hb : broadcastTxs rpc txid (extractTxs decode ev.tags) with
              ⟨calls, lines, res⟩
            cases res with
            | error e => simp [handleNotification, hk, hfm, hmm, hb]
            | ok u => simp [handleNotification, hk, hfm, hmm, hb]
          · simp [handleNotification, hk, hfm, hmm]
      · simp [handleNotification, hk]
  · intro url ev hfm
    exact handleNotification_no_call cfg decode txid rpc url ev (Or.inr (by simp [hfm]))
  · intro tags k h
    simp [findMagic, h]
  · intro tags k s rest h hp
    simp [findMagic, h, hp]
  · intro tags k h
    simp [findMagic, h]
  · intro tags k h
    simp [extractTxs, h]

/-- Witness for C10: a magic tag with an empty value list makes the
lookup fail and the event is dropped with an `Ok` result. -/
theorem c10_witness :
    findMagic [Tag.generic "magic" []] = none ∧
    handleNotification cfgBtc decodeHead natTxid rpcAllOk
        (Notification.event "r" ⟨28333, [Tag.generic "magic" []]⟩) =
      ([], [], Except.ok ()) :=
  ⟨(c10_pipeline_total cfgBtc decodeHead natTxid rpcAllOk).2.2.1
      [Tag.generic "magic" []] "magic" (by decide),
    (c10_pipeline_total cfgBtc decodeHead natTxid rpcAllOk).2.1 "r"
      ⟨28333, [Tag.generic "magic" []]⟩ (by decide)⟩
